import Mathlib

/-!
Shallow embedding of the RAG pipeline of the `generate-summary` repository.

Sources embedded:
* `src/src/lib/rag-service.ts` — `processPdf`, `processLink`, `queryDocument`,
  `processDocsAndGenerateAnswer` (the first, current version of the file).
* `src/src/lib/chat-service.ts` — `queryPdfDocument`.
* `src/src/lib/sql/match_pdf_chunks.sql` — the `match_pdf_chunks` stored procedure.

Modelling conventions:
* External calls (PDF loading, Supabase inserts/selects, the embedding API, the
  LLM, the summariser) are modelled as environment fields carrying the result
  the external system produced: `Except String α` where `.error` is a thrown /
  returned error and `.ok` the data.  Console logging and log-only database
  reads (the verification queries, `checkLatestChunkMetadata`, and the two
  diagnostic count queries in `queryDocument` that influence nothing) are not
  modelled.
* JavaScript metadata objects are association lists.  The object spread
  `\x7b ...doc.metadata, k: v \x7d` is `metaSet`, and `String(value)` is
  `MetaVal.stringify`.
* pgvector's `<=>` cosine-distance operator is an abstract rational-valued
  distance function parameter; every theorem about `match_pdf_chunks`
  quantifies over it.
* The temporary PDF file of `processPdf` is a boolean piece of state threaded
  through the function; `fs.unlinkSync` is modelled as succeeding.
-/

/-- Hard-coded user identity from `src/src/lib/constants.ts`. -/
def TEMPORARY_USER_ID : String := "user123"

/-- A metadata value as found in a loader document before persistence:
JavaScript strings, numbers or booleans. -/
inductive MetaVal : Type
  | str (v : String)
  | num (v : Int)
  | bool (v : Bool)
deriving DecidableEq, Repr

/-- JavaScript `String(value)` on a metadata value, as applied by the
`preparedDocs` mapping of `processPdf` / `processLink`. -/
def MetaVal.stringify : MetaVal → String
  | .str v => v
  | .num v => toString v
  | .bool v => if v then "true" else "false"

/-- Lookup of a key in a metadata association list (first match wins). -/
def lookupMeta {α : Type} : List (String × α) → String → Option α
  | [], _ => none
  | (k', v) :: rest, k => if k' = k then some v else lookupMeta rest k

/-- JavaScript object spread-with-override `\x7b ...m, k: v \x7d`:
the new binding shadows any existing binding of `k`. -/
def metaSet {α : Type} (m : List (String × α)) (k : String) (v : α) :
    List (String × α) :=
  (k, v) :: m.filter (fun p => p.1 ≠ k)

/-- A loader page / un-persisted chunk: LangChain `Document` before
metadata stringification. -/
structure Page where
  pageContent : String
  metadata : List (String × MetaVal)
deriving DecidableEq, Repr

/-- A persisted chunk row as stored in (or read back from) `pdf_chunks`:
string content plus string-valued metadata (`preparedDocs` stringifies every
metadata value before storage). -/
structure Chunk where
  content : String
  metadata : List (String × String)
deriving DecidableEq, Repr

/-- A `chat_history` row as inserted by `processDocsAndGenerateAnswer`. -/
structure ChatRow where
  pdf_id : String
  user_id : String
  user_message : String
  assistant_message : String
deriving DecidableEq, Repr

/-- Model of `RecursiveCharacterTextSplitter.splitDocuments`: each input document is
split into pieces (the splitting policy itself lives in the LangChain library
and is abstracted as `split`), and every derived chunk inherits its source
document's metadata.  The library's added `loc` bookkeeping key is elided;
it never collides with `pdf_id`. -/
def splitDocuments (split : String → List String) (docs : List Page) :
    List Page :=
  docs.flatMap (fun d => (split d.pageContent).map (fun piece => ⟨piece, d.metadata⟩))

/-- The `preparedDocs` mapping of `processPdf` / `processLink`: every metadata
value is passed through JavaScript `String` before the chunk is stored. -/
def prepareDocs (docs : List Page) : List Chunk :=
  docs.map (fun d => ⟨d.pageContent, d.metadata.map (fun p => (p.1, p.2.stringify))⟩)

/-- The PostgREST text filter `.filter("metadata->>pdf_id", "eq", pdfId)`,
also the `WHERE metadata->>'pdf_id' = pdf_id_filter` clause of the stored
procedures: the chunk's metadata holds key `pdf_id` with exactly this text. -/
def textFilterMatches (c : Chunk) (pdfId : String) : Bool :=
  lookupMeta c.metadata "pdf_id" == some pdfId

/-- Number of chunk rows matching the `metadata->>pdf_id` equality filter:
the count check of `queryDocument` and the verification count of
`processPdf`, restricted to a given list of rows. -/
def countChunksFor (rows : List Chunk) (pdfId : String) : Nat :=
  (rows.filter (fun c => textFilterMatches c pdfId)).length

-- =========================================================
-- Ingestion: processPdf and processLink
-- =========================================================

/-- Return value of `processPdf` (`pdfId` plus optional summary) and of
`processLink` (`contentId` plus optional summary); both carry the id of the
`pdfs` row created for the ingestion. -/
structure IngestOut where
  pdfId : String
  summary : Option String
deriving DecidableEq, Repr

/-- Results of the external calls a single `processPdf` invocation makes.
`insertResult` carries the generated id of the inserted `pdfs` row. -/
structure PdfEnv where
  fileName? : Option String
  loadResult : Except String (List Page)
  insertResult : Except String String
  storeResult : Except String Unit
  summaryResult : Except String String

/-- Observable outcome of one ingestion run: the returned value or thrown
error, whether the temporary file is still present at exit, the chunk rows
persisted into `pdf_chunks`, and how many times the summary generator was
invoked. -/
structure IngestOutcome where
  result : Except String IngestOut
  tempFilePresent : Bool
  storedChunks : List Chunk
  summaryCalls : Nat
deriving Repr

/-- Temp-file cleanup `if (fs.existsSync(tempFilePath)) fs.unlinkSync(...)`. -/
def cleanupTemp (tempFile : Bool) : Bool :=
  if tempFile then false else tempFile

/-- Model of `processPdf` (src/src/lib/rag-service.ts lines 83-331).  Steps: validate
the file, write the temp file, load pages, reject an empty extraction, insert
the `pdfs` row, chunk with injected `pdf_id`/`user_id` metadata, stringify
metadata, store chunks with embeddings, best-effort summary, cleanup, return.
Every failure path runs the `catch` block, which cleans up the temp file and
rethrows. -/
def processPdf (env : PdfEnv) (split : String → List String) : IngestOutcome :=
  match env.fileName? with
  | none => ⟨.error "No file provided", false, [], 0⟩
  | some fileName =>
    let _ := fileName
    -- fs.writeFileSync(tempFilePath, buffer)
    let tempFile := true
    match env.loadResult with
    | .error e => ⟨.error e, cleanupTemp tempFile, [], 0⟩
    | .ok docs =>
      if docs.isEmpty then
        ⟨.error "Could not extract any content from the provided PDF file.",
          cleanupTemp tempFile, [], 0⟩
      else
        match env.insertResult with
        | .error e =>
          ⟨.error ("Failed to store document: " ++ e), cleanupTemp tempFile, [], 0⟩
        | .ok pdfId =>
          let chunkedDocs := splitDocuments split
            (docs.map (fun doc =>
              ⟨doc.pageContent,
                metaSet (metaSet doc.metadata "pdf_id" (.str pdfId))
                  "user_id" (.str TEMPORARY_USER_ID)⟩))
          let preparedDocs := prepareDocs chunkedDocs
          match env.storeResult with
          | .error e =>
            ⟨.error ("Failed to store document chunks: " ++ e),
              cleanupTemp tempFile, [], 0⟩
          | .ok _ =>
            -- optional summary; failure is swallowed and summary stays null
            let summary : Option String :=
              match env.summaryResult with
              | .ok s => some s
              | .error _ => none
            ⟨.ok ⟨pdfId, summary⟩, cleanupTemp tempFile, preparedDocs, 1⟩

/-- Results of the external calls a single `processLink` invocation makes. -/
structure LinkEnv where
  url? : Option String
  loadResult : Except String (List Page)
  insertResult : Except String String
  storeResult : Except String Unit

/-- Model of `processLink` (src/src/lib/rag-service.ts lines 347-570).  Same pipeline
as `processPdf` minus the temp file, with `source_type`/`source` added to the
chunk metadata, no summary step (`summary: null` on return), and both catch
blocks wrapping error messages.  `processLink` has no temp file, so
`tempFilePresent` is constantly `false`. -/
def processLink (env : LinkEnv) (split : String → List String) : IngestOutcome :=
  match env.url? with
  | none => ⟨.error "No URL provided", false, [], 0⟩
  | some url =>
    match env.loadResult with
    | .error e => ⟨.error ("Failed to process URL: " ++ e), false, [], 0⟩
    | .ok docs =>
      if docs.isEmpty then
        ⟨.error ("Failed to process URL: " ++
          "Could not extract any content from the provided URL."), false, [], 0⟩
      else
        match env.insertResult with
        | .error e =>
          ⟨.error ("Failed to process URL: " ++ ("Failed to store document: " ++ e)),
            false, [], 0⟩
        | .ok pdfId =>
          let chunkedDocs := splitDocuments split
            (docs.map (fun doc =>
              ⟨doc.pageContent,
                metaSet (metaSet (metaSet (metaSet doc.metadata
                  "pdf_id" (.str pdfId))
                  "user_id" (.str TEMPORARY_USER_ID))
                  "source_type" (.str "link"))
                  "source" (.str url)⟩))
          let preparedDocs := prepareDocs chunkedDocs
          match env.storeResult with
          | .error e =>
            ⟨.error ("Failed to process URL: " ++
              ("Failed to generate embeddings: " ++ e)), false, [], 0⟩
          | .ok _ =>
            ⟨.ok ⟨pdfId, none⟩, false, preparedDocs, 0⟩

-- =========================================================
-- Storage layer: the match_pdf_chunks stored procedure
-- =========================================================

/-- A `pdf_chunks` row as seen by the stored procedure: id, content,
embedding vector and metadata. -/
structure ChunkRow where
  id : String
  content : String
  embedding : List ℚ
  metadata : List (String × String)
deriving DecidableEq, Repr

/-- The chunk rows of table `pdf_chunks` satisfying
`metadata->>'pdf_id' = pdf_id_filter`. -/
def rowsMatchingPdfId (rows : List ChunkRow) (pdfIdFilter : String) :
    List ChunkRow :=
  rows.filter (fun r => lookupMeta r.metadata "pdf_id" == some pdfIdFilter)

/-- Model of `match_pdf_chunks` (src/src/lib/sql/match_pdf_chunks.sql lines 4-25):
filter `pdf_chunks` by `metadata->>'pdf_id' = pdf_id_filter`, order by
`embedding <=> query_vector` ascending (pgvector cosine distance, kept
abstract as `dist`), and keep the first `match_limit` rows. -/
def match_pdf_chunks (rows : List ChunkRow) (dist : List ℚ → List ℚ → ℚ)
    (query_vector : List ℚ) (pdf_id_filter : String) (match_limit : ℕ) :
    List ChunkRow :=
  (List.insertionSort
    (fun a b => dist a.embedding query_vector ≤ dist b.embedding query_vector)
    (rowsMatchingPdfId rows pdf_id_filter)).take match_limit

-- =========================================================
-- Query path: processDocsAndGenerateAnswer and queryDocument
-- =========================================================

/-- Fixed answer returned by `queryDocument` when the chunk count for the
document id is zero. -/
def notProcessedAnswer : String :=
  "I couldn\x27t find any information for this document in my database. The document may not have been properly processed."

/-- Fixed answer returned by `processDocsAndGenerateAnswer` when it receives
zero retrieved chunks. -/
def noInformationAnswer : String :=
  "I don\x27t have any information about your document. No relevant content was found in the database."

/-- Outcome of `processDocsAndGenerateAnswer`: the produced answer or the
error thrown by `model.invoke`, the number of LLM invocations, and the
`chat_history` rows inserted (none when the LLM threw before the insert). -/
structure GenOutcome where
  result : Except String String
  llmCalls : ℕ
  chatRows : List ChatRow
deriving Repr

/-- Model of `processDocsAndGenerateAnswer` (src/src/lib/rag-service.ts lines
1045-1093): build the context, format the prompt, and either short-circuit
with the fixed no-information answer (zero docs, zero LLM calls) or invoke
the model on the formatted prompt.  `model.invoke` can throw
(`GenerationError`), in which case the error propagates and the
`chat_history` insert — which in the source runs only after the answer is
produced — is skipped.  When an answer is produced, one `chat_history` row is
inserted with the query and that answer.  `prompt.format` and `model.invoke`
are the `prompt`/`llm` parameters. -/
def processDocsAndGenerateAnswer (docs : List Chunk) (query : String)
    (pdfId : String) (userId : String)
    (prompt : String → String → String)
    (llm : String → Except String String) : GenOutcome :=
  let context := String.intercalate "\n\n" (docs.map (fun d => d.content))
  let formattedPrompt := prompt context query
  if docs.length = 0 then
    let answer := noInformationAnswer
    ⟨.ok answer, 0, [⟨pdfId, userId, query, answer⟩]⟩
  else
    match llm formattedPrompt with
    | .error e => ⟨.error e, 1, []⟩
    | .ok answer => ⟨.ok answer, 1, [⟨pdfId, userId, query, answer⟩]⟩

/-- Results of the external calls a single `queryDocument` invocation makes:
the `->>`-filtered count, the `match_pdf_chunks` RPC, the primary fallback
select (`metadata->pdf_id` json-operator filter, limit 3) and the alternative
fallback select (`metadata->>pdf_id` text-operator filter, limit 3); plus the
LLM, which like every other external call can fail.  The embedding client is
only observed through its call count. -/
structure QueryEnv where
  countResult : Except String ℕ
  rpcResult : Except String (List Chunk)
  primaryFallback : Except String (List Chunk)
  altFallback : Except String (List Chunk)
  prompt : String → String → String
  llm : String → Except String String

/-- Observable outcome of a `queryDocument` run: the returned answer or the
thrown error, how many embedding-API and LLM calls were made, the
`chat_history` rows inserted, the chunk list handed to
`processDocsAndGenerateAnswer` (`none` when the zero-count short-circuit
skipped generation), and whether the alternative fallback select was
attempted.  Side effects stay observable even when the run throws. -/
structure QueryOutcome where
  result : Except String String
  embedCalls : ℕ
  llmCalls : ℕ
  chatRows : List ChatRow
  generatorDocs : Option (List Chunk)
  altFallbackAttempted : Bool
deriving Repr

/-- Wrap a `processDocsAndGenerateAnswer` run into the `queryDocument`
outcome: one embedding call was already made for the query vector, and the
generator's result, LLM-call count and chat-history inserts carry over. -/
def finishWithDocs (docs : List Chunk) (query pdfId userId : String)
    (env : QueryEnv) (altAttempted : Bool) : QueryOutcome :=
  let g := processDocsAndGenerateAnswer docs query pdfId userId env.prompt env.llm
  ⟨g.result, 1, g.llmCalls, g.chatRows, some docs, altAttempted⟩

/-- Model of `queryDocument` (src/src/lib/rag-service.ts lines 652-936): validate the
inputs, check the chunk count (zero → fixed not-processed answer before any
embedding or LLM work), embed the query, run the `match_pdf_chunks` RPC with
`match_limit` 5, and on an empty result run the fallback: the primary limit-3
select, and — only when the primary select *errors* — the alternative limit-3
select; a fallback select that succeeds with a nonempty list is passed to the
generator, every other case falls through to the generator with the empty
retrieved list. -/
def queryDocument (query pdfId userId : String) (env : QueryEnv) :
    QueryOutcome :=
  if query = "" then ⟨.error "No query provided", 0, 0, [], none, false⟩
  else if pdfId = "" then ⟨.error "No content ID provided", 0, 0, [], none, false⟩
  else
    match env.countResult with
    | .error e =>
      ⟨.error ("Database error when checking for chunks: " ++ e), 0, 0, [],
        none, false⟩
    | .ok count =>
      if count = 0 then
        ⟨.ok notProcessedAnswer, 0, 0, [], none, false⟩
      else
        -- const queryEmbedding = await embeddings.embedQuery(query)
        match env.rpcResult with
        | .error e =>
          ⟨.error ("Vector search failed: " ++ e), 1, 0, [], none, false⟩
        | .ok retrievedDocs =>
          if retrievedDocs.length = 0 then
            match env.primaryFallback with
            | .error _ =>
              match env.altFallback with
              | .error _ =>
                finishWithDocs retrievedDocs query pdfId userId env true
              | .ok altChunks =>
                if altChunks.length > 0 then
                  finishWithDocs altChunks query pdfId userId env true
                else finishWithDocs retrievedDocs query pdfId userId env true
            | .ok fallbackChunks =>
              if fallbackChunks.length > 0 then
                finishWithDocs fallbackChunks query pdfId userId env false
              else finishWithDocs retrievedDocs query pdfId userId env false
          else finishWithDocs retrievedDocs query pdfId userId env false

-- =========================================================
-- UI-facing wrapper: queryPdfDocument (chat-service.ts)
-- =========================================================

/-- The apologetic template of `queryPdfDocument` catch block, with the
raw error message interpolated in the middle. -/
def apologyPrefix : String :=
  "Sorry, I encountered an error while processing your query: "

/-- Suffix of the apologetic template of `queryPdfDocument` catch block. -/
def apologySuffix : String :=
  ". Please try again later or contact support if the issue persists."

/-- Model of `queryPdfDocument` (src/src/lib/chat-service.ts lines 126-170): forward
to `queryDocument`; any error thrown there (rethrown by the inner catch) is
caught by the outer catch, which returns a normal-shaped response whose
`answer` is the apologetic template with `error.message` interpolated.  The
side effects of the partial run are unchanged by the catch. -/
def queryPdfDocument (query pdfId userId : String) (env : QueryEnv) :
    QueryOutcome :=
  let out := queryDocument query pdfId userId env
  match out.result with
  | .ok _ => out
  | .error msg =>
    { out with result := .ok (apologyPrefix ++ msg ++ apologySuffix) }

-- =========================================================
-- Helper lemmas on metadata lookup
-- =========================================================

/-- Filtering away a key other than `k` does not change the lookup of `k`. -/
theorem lookupMeta_filter_ne {α : Type} (m : List (String × α)) (j k : String)
    (h : j ≠ k) :
    lookupMeta (m.filter (fun p => p.1 ≠ j)) k = lookupMeta m k := by
  induction m with
  | nil => rfl
  | cons hd tl ih =>
    obtain ⟨k', v⟩ := hd
    simp only [ne_eq, decide_not] at ih
    by_cases hj : k' = j
    · subst hj
      have hk : k' ≠ k := h
      simp [List.filter_cons, lookupMeta, hk, ih]
    · by_cases hk : k' = k
      · subst hk
        simp [List.filter_cons, lookupMeta, hj]
      · simp [List.filter_cons, lookupMeta, hj, hk, ih]

/-- Setting a key and looking it up returns the new value. -/
theorem lookupMeta_metaSet_self {α : Type} (m : List (String × α)) (k : String)
    (v : α) : lookupMeta (metaSet m k v) k = some v := by
  simp [metaSet, lookupMeta]

/-- Setting one key does not change the lookup of a different key. -/
theorem lookupMeta_metaSet_ne {α : Type} (m : List (String × α)) (j k : String)
    (v : α) (h : j ≠ k) : lookupMeta (metaSet m j v) k = lookupMeta m k := by
  simp only [metaSet, lookupMeta, h, if_false]
  exact lookupMeta_filter_ne m j k h

/-- Lookup commutes with the value-stringification of `prepareDocs`. -/
theorem lookupMeta_map_stringify (m : List (String × MetaVal)) (k : String) :
    lookupMeta (m.map (fun p => (p.1, p.2.stringify))) k =
      (lookupMeta m k).map MetaVal.stringify := by
  induction m with
  | nil => rfl
  | cons hd tl ih =>
    by_cases h : hd.1 = k <;> simp [lookupMeta, h, ih]

/-- Every chunk produced by chunking-then-stringifying pages whose metadata
carries `pdf_id ↦ pid` still carries `pdf_id ↦ pid` as a string. -/
theorem prepare_split_lookup (split : String → List String) (docs : List Page)
    (f : List (String × MetaVal) → List (String × MetaVal)) (pid : String)
    (hf : ∀ meta, lookupMeta (f meta) "pdf_id" = some (.str pid)) :
    ∀ c ∈ prepareDocs (splitDocuments split
      (docs.map (fun d => ⟨d.pageContent, f d.metadata⟩))),
      lookupMeta c.metadata "pdf_id" = some pid := by
  intro c hc
  unfold prepareDocs at hc
  rw [List.mem_map] at hc
  obtain ⟨d, hd, rfl⟩ := hc
  unfold splitDocuments at hd
  rw [List.mem_flatMap] at hd
  obtain ⟨d', hd', hmem⟩ := hd
  rw [List.mem_map] at hd'
  obtain ⟨d0, _, rfl⟩ := hd'
  rw [List.mem_map] at hmem
  obtain ⟨piece, _, rfl⟩ := hmem
  rw [show (⟨piece, (⟨d0.pageContent, f d0.metadata⟩ : Page).metadata⟩ : Page).metadata
      = f d0.metadata from rfl]
  rw [lookupMeta_map_stringify, hf d0.metadata]
  rfl

/-- When every row carries the filtered `pdf_id`, the equality-filtered count
is the full row count. -/
theorem countChunksFor_eq_length (rows : List Chunk) (pid : String)
    (h : ∀ c ∈ rows, lookupMeta c.metadata "pdf_id" = some pid) :
    countChunksFor rows pid = rows.length := by
  unfold countChunksFor
  have : rows.filter (fun c => textFilterMatches c pid) = rows := by
    apply List.filter_eq_self.mpr
    intro c hc
    simp [textFilterMatches, h c hc]
  rw [this]

-- =========================================================
-- Claim theorems
-- =========================================================

/-- C7: every invocation of `processPdf` — successful return, empty
extraction, failed insert or store, or any other thrown error — terminates
with the temporary PDF file no longer present; no exit path leaks it. -/
theorem processPdf_temp_file_removed (env : PdfEnv)
    (split : String → List String) :
    (processPdf env split).tempFilePresent = false := by
  obtain ⟨fn?, lr, ir, sr, sur⟩ := env
  cases fn? with
  | none => rfl
  | some fn =>
    cases lr with
    | error e => rfl
    | ok docs =>
      by_cases hd : docs.isEmpty
      · simp [processPdf, hd, cleanupTemp]
      · cases ir with
        | error e => simp [processPdf, hd, cleanupTemp]
        | ok pid =>
          cases sr with
          | error e => simp [processPdf, hd, cleanupTemp]
          | ok u => cases sur <;> simp [processPdf, hd, cleanupTemp]

/-- C6: when every ingestion-critical step of `processPdf` succeeds but the
summary generation fails, `processPdf` still completes successfully and
returns the created document id with a `null` summary. -/
theorem processPdf_summary_failure_nonfatal (env : PdfEnv)
    (split : String → List String) (fn : String) (docs : List Page)
    (pid e : String)
    (h1 : env.fileName? = some fn) (h2 : env.loadResult = .ok docs)
    (h3 : docs ≠ []) (h4 : env.insertResult = .ok pid)
    (h5 : env.storeResult = .ok ()) (h6 : env.summaryResult = .error e) :
    (processPdf env split).result = .ok ⟨pid, none⟩ := by
  obtain ⟨fn?, lr, ir, sr, sur⟩ := env
  simp only at h1 h2 h4 h5 h6
  subst h1 h2 h4 h5 h6
  have hd : docs.isEmpty = false := by
    cases docs with
    | nil => exact absurd rfl h3
    | cons a l => rfl
  simp [processPdf, hd]

/-- Witness for C6 at a concrete environment: load succeeds with one page,
insert and store succeed, the summariser fails, and the result is the
document id with a `null` summary. -/
theorem processPdf_summary_failure_nonfatal_witness :
    (processPdf ⟨some "a.pdf", .ok [⟨"hello", []⟩], .ok "doc-1", .ok (),
        .error "llm down"⟩ (fun s => [s])).result = .ok ⟨"doc-1", none⟩ :=
  processPdf_summary_failure_nonfatal _ _ "a.pdf" [⟨"hello", []⟩] "doc-1"
    "llm down" rfl rfl (by simp) rfl rfl rfl

/-- C10: `processLink` never invokes the summary generator and every
successful URL ingestion returns `summary = none`; `processPdf`, in
contrast, invokes the summary generator (exactly once) on every successful
PDF ingestion. -/
theorem processLink_summary_always_null (split : String → List String) :
    (∀ env : LinkEnv, (processLink env split).summaryCalls = 0 ∧
      ∀ out : IngestOut, (processLink env split).result = .ok out →
        out.summary = none) ∧
    (∀ (env : PdfEnv) (out : IngestOut),
      (processPdf env split).result = .ok out →
      (processPdf env split).summaryCalls = 1) := by
  constructor
  · intro env
    obtain ⟨url?, lr, ir, sr⟩ := env
    cases url? with
    | none => exact ⟨rfl, by intro out h; simp [processLink] at h⟩
    | some url =>
      cases lr with
      | error e => exact ⟨rfl, by intro out h; simp [processLink] at h⟩
      | ok docs =>
        by_cases hd : docs.isEmpty
        · refine ⟨by simp [processLink, hd], ?_⟩
          intro out h
          simp [processLink, hd] at h
        · cases ir with
          | error e =>
            refine ⟨by simp [processLink, hd], ?_⟩
            intro out h
            simp [processLink, hd] at h
          | ok pid =>
            cases sr with
            | error e =>
              refine ⟨by simp [processLink, hd], ?_⟩
              intro out h
              simp [processLink, hd] at h
            | ok u =>
              refine ⟨by simp [processLink, hd], ?_⟩
              intro out h
              simp [processLink, hd] at h
              rw [← h]
  · intro env out h
    obtain ⟨fn?, lr, ir, sr, sur⟩ := env
    cases fn? with
    | none => simp [processPdf] at h
    | some fn =>
      cases lr with
      | error e => simp [processPdf] at h
      | ok docs =>
        by_cases hd : docs.isEmpty
        · simp [processPdf, hd] at h
        · cases ir with
          | error e => simp [processPdf, hd] at h
          | ok pid =>
            cases sr with
            | error e => simp [processPdf, hd] at h
            | ok u => cases sur <;> simp [processPdf, hd]

/-- Witness for C10 at concrete environments: a successful link ingestion
returns a `null` summary with zero summariser calls, derived from the
theorem. -/
theorem processLink_summary_always_null_witness :
    (processLink ⟨some "http://x", .ok [⟨"hello", []⟩], .ok "doc-2", .ok ()⟩
        (fun s => [s])).summaryCalls = 0 ∧
    ((processLink ⟨some "http://x", .ok [⟨"hello", []⟩], .ok "doc-2", .ok ()⟩
        (fun s => [s])).result = .ok ⟨"doc-2", none⟩ →
      (⟨"doc-2", none⟩ : IngestOut).summary = none) :=
  ⟨((processLink_summary_always_null (fun s => [s])).1 _).1,
    fun h => ((processLink_summary_always_null (fun s => [s])).1 _).2 _ h⟩

/-- C1: for every document ingested via `processPdf` or `processLink`, every
chunk persisted for that ingestion carries a string-valued metadata entry
`pdf_id` equal to the id of the created `pdfs` row, and the
`metadata->>pdf_id` equality filter for that id matches all of the ingestion's
chunks (hence at least one when chunks exist). -/
theorem ingest_chunks_carry_pdf_id (split : String → List String) :
    (∀ (env : PdfEnv) (out : IngestOut),
      (processPdf env split).result = .ok out →
      (∀ c ∈ (processPdf env split).storedChunks,
        lookupMeta c.metadata "pdf_id" = some out.pdfId) ∧
      countChunksFor (processPdf env split).storedChunks out.pdfId =
        (processPdf env split).storedChunks.length) ∧
    (∀ (env : LinkEnv) (out : IngestOut),
      (processLink env split).result = .ok out →
      (∀ c ∈ (processLink env split).storedChunks,
        lookupMeta c.metadata "pdf_id" = some out.pdfId) ∧
      countChunksFor (processLink env split).storedChunks out.pdfId =
        (processLink env split).storedChunks.length) := by
  constructor
  · intro env out h
    obtain ⟨fn?, lr, ir, sr, sur⟩ := env
    cases fn? with
    | none => simp [processPdf] at h
    | some fn =>
      cases lr with
      | error e => simp [processPdf] at h
      | ok docs =>
        by_cases hd : docs.isEmpty
        · simp [processPdf, hd] at h
        · cases ir with
          | error e => simp [processPdf, hd] at h
          | ok pid =>
            cases sr with
            | error e => simp [processPdf, hd] at h
            | ok u =>
              have hpid : out.pdfId = pid := by
                cases sur <;> simp [processPdf, hd] at h <;> rw [← h]
              have hmem :
                  ∀ c ∈ (processPdf ⟨some fn, .ok docs, .ok pid, .ok u, sur⟩
                    split).storedChunks,
                  lookupMeta c.metadata "pdf_id" = some pid := by
                have hstored :
                    (processPdf ⟨some fn, .ok docs, .ok pid, .ok u, sur⟩
                      split).storedChunks =
                    prepareDocs (splitDocuments split
                      (docs.map (fun doc =>
                        ⟨doc.pageContent,
                          metaSet (metaSet doc.metadata "pdf_id" (.str pid))
                            "user_id" (.str TEMPORARY_USER_ID)⟩))) := by
                  cases sur <;> simp [processPdf, hd]
                rw [hstored]
                exact prepare_split_lookup split docs
                  (fun m => metaSet (metaSet m "pdf_id" (.str pid))
                    "user_id" (.str TEMPORARY_USER_ID)) pid
                  (fun m => by
                    rw [lookupMeta_metaSet_ne _ "user_id" "pdf_id" _ (by decide)]
                    exact lookupMeta_metaSet_self _ _ _)
              rw [hpid]
              exact ⟨hmem, countChunksFor_eq_length _ _ hmem⟩
  · intro env out h
    obtain ⟨url?, lr, ir, sr⟩ := env
    cases url? with
    | none => simp [processLink] at h
    | some url =>
      cases lr with
      | error e => simp [processLink] at h
      | ok docs =>
        by_cases hd : docs.isEmpty
        · simp [processLink, hd] at h
        · cases ir with
          | error e => simp [processLink, hd] at h
          | ok pid =>
            cases sr with
            | error e => simp [processLink, hd] at h
            | ok u =>
              have hpid : out.pdfId = pid := by
                simp [processLink, hd] at h
                rw [← h]
              have hmem :
                  ∀ c ∈ (processLink ⟨some url, .ok docs, .ok pid, .ok u⟩
                    split).storedChunks,
                  lookupMeta c.metadata "pdf_id" = some pid := by
                have hstored :
                    (processLink ⟨some url, .ok docs, .ok pid, .ok u⟩
                      split).storedChunks =
                    prepareDocs (splitDocuments split
                      (docs.map (fun doc =>
                        ⟨doc.pageContent,
                          metaSet (metaSet (metaSet (metaSet doc.metadata
                            "pdf_id" (.str pid))
                            "user_id" (.str TEMPORARY_USER_ID))
                            "source_type" (.str "link"))
                            "source" (.str url)⟩))) := by
                  simp [processLink, hd]
                rw [hstored]
                exact prepare_split_lookup split docs
                  (fun m => metaSet (metaSet (metaSet (metaSet m
                    "pdf_id" (.str pid)) "user_id" (.str TEMPORARY_USER_ID))
                    "source_type" (.str "link")) "source" (.str url)) pid
                  (fun m => by
                    rw [lookupMeta_metaSet_ne _ "source" "pdf_id" _ (by decide)]
                    rw [lookupMeta_metaSet_ne _ "source_type" "pdf_id" _ (by decide)]
                    rw [lookupMeta_metaSet_ne _ "user_id" "pdf_id" _ (by decide)]
                    exact lookupMeta_metaSet_self _ _ _)
              rw [hpid]
              exact ⟨hmem, countChunksFor_eq_length _ _ hmem⟩

/-- Witness for C1 at a concrete PDF ingestion: the one stored chunk carries
`pdf_id ↦ "doc-1"` and the filtered count equals the chunk count. -/
theorem ingest_chunks_carry_pdf_id_witness :
    (∀ c ∈ (processPdf ⟨some "a.pdf", .ok [⟨"hello", [("page", .num 1)]⟩],
        .ok "doc-1", .ok (), .ok "a summary"⟩ (fun s => [s])).storedChunks,
      lookupMeta c.metadata "pdf_id" = some "doc-1") ∧
    countChunksFor (processPdf ⟨some "a.pdf", .ok [⟨"hello", [("page", .num 1)]⟩],
        .ok "doc-1", .ok (), .ok "a summary"⟩ (fun s => [s])).storedChunks "doc-1" =
      (processPdf ⟨some "a.pdf", .ok [⟨"hello", [("page", .num 1)]⟩],
        .ok "doc-1", .ok (), .ok "a summary"⟩ (fun s => [s])).storedChunks.length :=
  (ingest_chunks_carry_pdf_id (fun s => [s])).1
    ⟨some "a.pdf", .ok [⟨"hello", [("page", .num 1)]⟩], .ok "doc-1", .ok (),
      .ok "a summary"⟩ ⟨"doc-1", some "a summary"⟩ rfl

/-- C2: when the stored chunk count for the document id is zero (in
particular for a nonexistent document id), `queryDocument` returns the fixed
not-processed answer, performs zero embedding calls and zero LLM calls, and
inserts no `chat_history` row. -/
theorem queryDocument_zero_chunk_short_circuit (query pdfId userId : String)
    (env : QueryEnv) (hq : query ≠ "") (hp : pdfId ≠ "")
    (hc : env.countResult = .ok 0) :
    queryDocument query pdfId userId env =
      ⟨.ok notProcessedAnswer, 0, 0, [], none, false⟩ := by
  simp [queryDocument, hq, hp, hc]

/-- Witness for C2 at a concrete query against a document with no stored
chunks: the fixed answer with zero embedding calls, zero LLM calls, and an
empty list of chat-history inserts. -/
theorem queryDocument_zero_chunk_short_circuit_witness :
    queryDocument "what is this" "nonexistent-id" "user123"
        ⟨.ok 0, .ok [], .ok [], .ok [], fun c q => c ++ q, fun p => .ok p⟩ =
      ⟨.ok notProcessedAnswer, 0, 0, [], none, false⟩ :=
  queryDocument_zero_chunk_short_circuit _ _ _ _ (by decide) (by decide) rfl

/-- C5: `processDocsAndGenerateAnswer` given zero retrieved chunks makes no
LLM call and produces the fixed no-information answer (the chat-history row
it inserts carries that answer). -/
theorem generator_empty_context_short_circuit (query pdfId userId : String)
    (prompt : String → String → String)
    (llm : String → Except String String) :
    processDocsAndGenerateAnswer [] query pdfId userId prompt llm =
      ⟨.ok noInformationAnswer, 0,
        [⟨pdfId, userId, query, noInformationAnswer⟩]⟩ :=
  rfl

/-- Characterisation of `finishWithDocs`: when an answer is produced, exactly
one chat-history row carrying the query and that answer is recorded; when the
LLM threw, no row is recorded; the chunk list handed to the generator and the
alternative-fallback flag pass through. -/
theorem finishWithDocs_chat (docs : List Chunk) (query pdfId userId : String)
    (env : QueryEnv) (altAttempted : Bool) :
    (∀ ans : String,
      (finishWithDocs docs query pdfId userId env altAttempted).result =
        .ok ans →
      (finishWithDocs docs query pdfId userId env altAttempted).chatRows =
        [⟨pdfId, userId, query, ans⟩]) ∧
    (∀ e : String,
      (finishWithDocs docs query pdfId userId env altAttempted).result =
        .error e →
      (finishWithDocs docs query pdfId userId env altAttempted).chatRows =
        []) ∧
    (finishWithDocs docs query pdfId userId env altAttempted).generatorDocs =
      some docs ∧
    (finishWithDocs docs query pdfId userId env
      altAttempted).altFallbackAttempted = altAttempted := by
  cases docs with
  | nil =>
    refine ⟨?_, ?_, rfl, rfl⟩
    · intro ans h
      have heq : (finishWithDocs [] query pdfId userId env altAttempted).result
          = .ok noInformationAnswer := rfl
      rw [heq] at h
      simp only [Except.ok.injEq] at h
      show [(⟨pdfId, userId, query, noInformationAnswer⟩ : ChatRow)] =
        [⟨pdfId, userId, query, ans⟩]
      rw [h]
    · intro e h
      have heq : (finishWithDocs [] query pdfId userId env altAttempted).result
          = .ok noInformationAnswer := rfl
      rw [heq] at h
      exact absurd h (by simp)
  | cons c rest =>
    have hlen : ¬ (c :: rest).length = 0 := by simp
    cases hllm : env.llm (env.prompt
        (String.intercalate "\n\n" (List.map (fun d => d.content) (c :: rest)))
        query) with
    | ok ans0 =>
      have heq : finishWithDocs (c :: rest) query pdfId userId env altAttempted
          = ⟨.ok ans0, 1, 1, [⟨pdfId, userId, query, ans0⟩], some (c :: rest),
              altAttempted⟩ := by
        unfold finishWithDocs processDocsAndGenerateAnswer
        simp only [hlen, if_false, hllm, if_neg hlen]
      rw [heq]
      refine ⟨?_, ?_, rfl, rfl⟩
      · intro ans h
        simp only [Except.ok.injEq] at h
        rw [h]
      · intro e h
        exact absurd h (by simp)
    | error e0 =>
      have heq : finishWithDocs (c :: rest) query pdfId userId env altAttempted
          = ⟨.error e0, 1, 1, [], some (c :: rest), altAttempted⟩ := by
        unfold finishWithDocs processDocsAndGenerateAnswer
        simp only [hlen, if_false, hllm, if_neg hlen]
      rw [heq]
      refine ⟨?_, ?_, rfl, rfl⟩
      · intro ans h
        exact absurd h (by simp)
      · intro e h
        rfl

/-- Environment in which the LLM invocation itself fails while a chunk was
retrieved: the count check passes and generation is reached, but
`model.invoke` throws before the `chat_history` insert. -/
def llmFailureEnv : QueryEnv :=
  ⟨.ok 1, .ok [⟨"text", [("pdf_id", "doc-1")]⟩], .ok [], .ok [],
    fun c q => c ++ q, fun _ => .error "groq down"⟩

/-- C9 counterexample: a query that passes the nonzero-chunk-count check and
reaches answer generation with one retrieved chunk, whose LLM invocation
throws: no `chat_history` row is inserted, refuting the claim that only the
zero-chunk-count short-circuit skips chat-history logging. -/
theorem chat_history_skipped_on_llm_failure_counterexample :
    llmFailureEnv.countResult = .ok 1 ∧
    (queryDocument "what is this" "doc-1" "user123"
      llmFailureEnv).generatorDocs = some [⟨"text", [("pdf_id", "doc-1")]⟩] ∧
    (queryDocument "what is this" "doc-1" "user123" llmFailureEnv).result =
      .error "groq down" ∧
    (queryDocument "what is this" "doc-1" "user123" llmFailureEnv).chatRows =
      [] :=
  ⟨rfl, rfl, rfl, rfl⟩

/-- C9 amended: every query that passes the nonzero-chunk-count check and
whose vector-search RPC does not error reaches answer generation, and
whenever an answer is produced — including when zero chunks were retrieved
and the fixed no-information answer was produced without an LLM call —
exactly one `chat_history` row is inserted with that query as `user_message`
and the produced answer as `assistant_message`; when the LLM invocation
throws, the query fails, no answer is produced, and no row is inserted. -/
theorem chat_history_logged_amended (query pdfId userId : String)
    (env : QueryEnv) (n : ℕ) (l : List Chunk)
    (hq : query ≠ "") (hp : pdfId ≠ "") (hc : env.countResult = .ok n)
    (hn : n ≠ 0) (hr : env.rpcResult = .ok l) :
    (queryDocument query pdfId userId env).generatorDocs.isSome ∧
    (∀ ans : String, (queryDocument query pdfId userId env).result = .ok ans →
      (queryDocument query pdfId userId env).chatRows =
        [⟨pdfId, userId, query, ans⟩]) ∧
    (∀ e : String, (queryDocument query pdfId userId env).result = .error e →
      (queryDocument query pdfId userId env).chatRows = []) := by
  have hex : ∃ (docs : List Chunk) (alt : Bool),
      queryDocument query pdfId userId env =
        finishWithDocs docs query pdfId userId env alt := by
    rw [queryDocument]
    simp only [hq, hp, hc, hn, hr, if_neg hq, if_neg hp, if_neg hn]
    by_cases hl : l.length = 0
    · simp only [if_pos hl]
      cases hpf : env.primaryFallback with
      | error e =>
        cases haf : env.altFallback with
        | error e2 => exact ⟨l, true, rfl⟩
        | ok altChunks =>
          by_cases halt : altChunks.length > 0
          · simp only [if_pos halt]
            exact ⟨altChunks, true, rfl⟩
          · simp only [if_neg halt]
            exact ⟨l, true, rfl⟩
      | ok fallbackChunks =>
        by_cases hfb : fallbackChunks.length > 0
        · simp only [if_pos hfb]
          exact ⟨fallbackChunks, false, rfl⟩
        · simp only [if_neg hfb]
          exact ⟨l, false, rfl⟩
    · simp only [if_neg hl]
      exact ⟨l, false, rfl⟩
  obtain ⟨docs, alt, heq⟩ := hex
  rw [heq]
  obtain ⟨h1, h2, h3, _⟩ := finishWithDocs_chat docs query pdfId userId env alt
  refine ⟨?_, h1, h2⟩
  rw [h3]
  rfl

/-- Witness for the amended C9 at a concrete environment in which the
similarity search and both fallbacks return zero rows: the fixed
no-information answer is produced without an LLM call and the chat-history
row carrying it is still inserted. -/
theorem chat_history_logged_amended_witness :
    (queryDocument "what is this" "doc-1" "user123"
      ⟨.ok 2, .ok [], .ok [], .ok [], fun c q => c ++ q,
        fun p => .ok p⟩).chatRows =
      [⟨"doc-1", "user123", "what is this", noInformationAnswer⟩] :=
  (chat_history_logged_amended "what is this" "doc-1" "user123"
      ⟨.ok 2, .ok [], .ok [], .ok [], fun c q => c ++ q, fun p => .ok p⟩ 2 []
      (by decide) (by decide) rfl (by decide) rfl).2.1
    noInformationAnswer rfl

/-- Environment exhibiting the fallback gap: the count query reports 2
chunks, the similarity-search RPC returns zero rows, and the primary fallback
select succeeds but returns zero rows (the json-operator filter
`metadata->pdf_id` matching nothing is exactly the metadata-format mismatch
the fallback was meant to paper over), while the alternative select would
have found a chunk. -/
def fallbackGapEnv : QueryEnv :=
  ⟨.ok 2, .ok [], .ok [], .ok [⟨"text", [("pdf_id", "doc-1")]⟩],
    fun c q => c ++ q, fun p => .ok p⟩

/-- C3 counterexample: with a chunk count of 2 and a similarity search
returning zero rows, the primary fallback select succeeds with zero rows, the
alternative select (which would have found chunks) is never attempted, and
the Answer Generator is handed the empty chunk list — refuting the claim that
the fallback supplies at least one chunk. -/
theorem fallback_supplies_chunk_counterexample :
    fallbackGapEnv.countResult = .ok 2 ∧
    fallbackGapEnv.rpcResult = .ok [] ∧
    fallbackGapEnv.altFallback = .ok [⟨"text", [("pdf_id", "doc-1")]⟩] ∧
    queryDocument "what is this" "doc-1" "user123" fallbackGapEnv =
      ⟨.ok noInformationAnswer, 1, 0,
        [⟨"doc-1", "user123", "what is this", noInformationAnswer⟩],
        some [], false⟩ :=
  ⟨rfl, rfl, rfl, rfl⟩

/-- C3 amended: when the similarity search returns zero rows despite a
nonzero chunk count, the fallback issues the limit-3 primary select; when
that select succeeds the alternative select is never attempted and the
generator receives exactly the rows the primary select returned (zero chunks
when it returned zero rows); when it errors the alternative select is
attempted and the generator receives its rows when nonempty and zero chunks
when it is empty or errors; so the generator receives at least one chunk
exactly when the primary select returns a nonempty row set, or errors while
the alternative select returns a nonempty row set. -/
theorem fallback_scan_amended (query pdfId userId : String) (env : QueryEnv)
    (n : ℕ) (hq : query ≠ "") (hp : pdfId ≠ "") (hc : env.countResult = .ok n)
    (hn : n ≠ 0) (hr : env.rpcResult = .ok []) :
    (∀ l : List Chunk, env.primaryFallback = .ok l →
      (queryDocument query pdfId userId env).generatorDocs = some l ∧
      (queryDocument query pdfId userId env).altFallbackAttempted = false) ∧
    (∀ e : String, env.primaryFallback = .error e →
      (queryDocument query pdfId userId env).altFallbackAttempted = true ∧
      (∀ l : List Chunk, env.altFallback = .ok l → l ≠ [] →
        (queryDocument query pdfId userId env).generatorDocs = some l) ∧
      (env.altFallback = .ok [] →
        (queryDocument query pdfId userId env).generatorDocs = some []) ∧
      (∀ e2 : String, env.altFallback = .error e2 →
        (queryDocument query pdfId userId env).generatorDocs = some [])) ∧
    ((∃ l : List Chunk,
        (queryDocument query pdfId userId env).generatorDocs = some l ∧
        l ≠ []) ↔
      ((∃ l : List Chunk, env.primaryFallback = .ok l ∧ l ≠ []) ∨
       (∃ (e : String) (l : List Chunk), env.primaryFallback = .error e ∧
         env.altFallback = .ok l ∧ l ≠ []))) := by
  have hprimary : ∀ l : List Chunk, env.primaryFallback = .ok l →
      queryDocument query pdfId userId env =
        finishWithDocs l query pdfId userId env false := by
    intro l hpf
    rw [queryDocument]
    simp only [hq, hp, hc, hn, hr, hpf, if_neg hq, if_neg hp, if_neg hn,
      List.length_nil, if_pos rfl, if_true, if_false]
    by_cases hl : l.length > 0
    · rw [if_pos hl]
    · rw [if_neg hl]
      have hempty : l = [] := by
        cases l with
        | nil => rfl
        | cons a t => exact absurd (by simp) hl
      rw [hempty]
  have herrAlt : ∀ (e : String) (l : List Chunk),
      env.primaryFallback = .error e → env.altFallback = .ok l →
      queryDocument query pdfId userId env =
        finishWithDocs (if l.length > 0 then l else []) query pdfId userId
          env true := by
    intro e l hpf haf
    rw [queryDocument]
    simp only [hq, hp, hc, hn, hr, hpf, haf, if_neg hq, if_neg hp, if_neg hn,
      List.length_nil, if_pos rfl, if_true, if_false]
    by_cases hl : l.length > 0
    · rw [if_pos hl, if_pos hl]
    · rw [if_neg hl, if_neg hl]
  have herrErr : ∀ e e2 : String,
      env.primaryFallback = .error e → env.altFallback = .error e2 →
      queryDocument query pdfId userId env =
        finishWithDocs [] query pdfId userId env true := by
    intro e e2 hpf haf
    rw [queryDocument]
    simp only [hq, hp, hc, hn, hr, hpf, haf, if_neg hq, if_neg hp, if_neg hn,
      List.length_nil, if_pos rfl, if_true, if_false]
  refine ⟨?_, ?_, ?_⟩
  · intro l hpf
    rw [hprimary l hpf]
    exact ⟨rfl, rfl⟩
  · intro e hpf
    have halt : (queryDocument query pdfId userId env).altFallbackAttempted =
        true := by
      cases haf : env.altFallback with
      | error e2 =>
        rw [herrErr e e2 hpf haf]
        rfl
      | ok l =>
        rw [herrAlt e l hpf haf]
        rfl
    refine ⟨halt, ?_, ?_, ?_⟩
    · intro l haf hl
      rw [herrAlt e l hpf haf]
      have hlen : l.length > 0 := List.length_pos.mpr hl
      rw [if_pos hlen]
      rfl
    · intro haf
      rw [herrAlt e [] hpf haf]
      rfl
    · intro e2 haf
      rw [herrErr e e2 hpf haf]
      rfl
  · constructor
    · rintro ⟨l, hgen, hl⟩
      cases hpf : env.primaryFallback with
      | ok pl =>
        left
        rw [hprimary pl hpf] at hgen
        have hpl : pl = l := Option.some.inj hgen
        exact ⟨pl, rfl, by rw [hpl]; exact hl⟩
      | error e =>
        right
        cases haf : env.altFallback with
        | error e2 =>
          rw [herrErr e e2 hpf haf] at hgen
          have hnil : ([] : List Chunk) = l := Option.some.inj hgen
          exact absurd hnil.symm hl
        | ok al =>
          rw [herrAlt e al hpf haf] at hgen
          by_cases hal : al.length > 0
          · rw [if_pos hal] at hgen
            have hal2 : al = l := Option.some.inj hgen
            exact ⟨e, al, rfl, rfl, by rw [hal2]; exact hl⟩
          · rw [if_neg hal] at hgen
            have hnil : ([] : List Chunk) = l := Option.some.inj hgen
            exact absurd hnil.symm hl
    · rintro (⟨l, hpf, hl⟩ | ⟨e, l, hpf, haf, hl⟩)
      · rw [hprimary l hpf]
        exact ⟨l, rfl, hl⟩
      · rw [herrAlt e l hpf haf]
        have hlen : l.length > 0 := List.length_pos.mpr hl
        rw [if_pos hlen]
        exact ⟨l, rfl, hl⟩

/-- Witness for the amended C3 at a concrete environment whose primary
fallback select returns one chunk: that chunk list reaches the generator and
the alternative select is not attempted. -/
theorem fallback_scan_amended_witness :
    (queryDocument "what is this" "doc-1" "user123"
      ⟨.ok 2, .ok [], .ok [⟨"text", [("pdf_id", "doc-1")]⟩], .ok [],
        fun c q => c ++ q, fun p => .ok p⟩).generatorDocs =
      some [⟨"text", [("pdf_id", "doc-1")]⟩] ∧
    (queryDocument "what is this" "doc-1" "user123"
      ⟨.ok 2, .ok [], .ok [⟨"text", [("pdf_id", "doc-1")]⟩], .ok [],
        fun c q => c ++ q, fun p => .ok p⟩).altFallbackAttempted = false :=
  (fallback_scan_amended "what is this" "doc-1" "user123"
      ⟨.ok 2, .ok [], .ok [⟨"text", [("pdf_id", "doc-1")]⟩], .ok [],
        fun c q => c ++ q, fun p => .ok p⟩ 2
      (by decide) (by decide) rfl (by decide) rfl).1
    [⟨"text", [("pdf_id", "doc-1")]⟩] rfl

/-- Environment in which the query fails internally: the chunk-count check
errors with raw message "boom", so `queryDocument` throws. -/
def internalFailureEnv : QueryEnv :=
  ⟨.error "boom", .ok [], .ok [], .ok [], fun c q => c ++ q, fun p => .ok p⟩

/-- C8 counterexample: on an internal failure whose raw error text is
"boom", `queryPdfDocument` user-facing answer is the apologetic template
with the raw error text embedded — the raw error text *is* propagated to the
caller inside the answer, refuting the claim no-propagation clause. -/
theorem apologetic_answer_counterexample :
    ∃ pre post : String,
      (queryPdfDocument "what is this" "doc-1" "user123"
        internalFailureEnv).result = .ok (pre ++ "boom" ++ post) :=
  ⟨apologyPrefix ++ "Database error when checking for chunks: ",
    apologySuffix, rfl⟩

/-- C8 amended: `queryPdfDocument` never throws to the UI layer — every
internal failure is converted into a normal-shaped response — and on failure
the answer is the apologetic template with the underlying error message
text embedded in it (rather than a message free of the raw error text);
successful results pass through unchanged. -/
theorem apologetic_answer_amended (query pdfId userId : String)
    (env : QueryEnv) :
    (∀ ans : String,
      (queryDocument query pdfId userId env).result = .ok ans →
      queryPdfDocument query pdfId userId env =
        queryDocument query pdfId userId env) ∧
    (∀ msg : String,
      (queryDocument query pdfId userId env).result = .error msg →
      (queryPdfDocument query pdfId userId env).result =
        .ok (apologyPrefix ++ msg ++ apologySuffix)) := by
  constructor
  · intro ans h
    simp [queryPdfDocument, h]
  · intro msg h
    simp [queryPdfDocument, h]

/-- Witness for the amended C8 at the concrete failing environment: the
response is normal-shaped with the apologetic answer embedding the raw
message. -/
theorem apologetic_answer_amended_witness :
    (queryPdfDocument "what is this" "doc-1" "user123"
      internalFailureEnv).result =
      .ok (apologyPrefix ++ "Database error when checking for chunks: boom" ++
        apologySuffix) :=
  (apologetic_answer_amended "what is this" "doc-1" "user123"
    internalFailureEnv).2 "Database error when checking for chunks: boom" rfl

/-- C4: for every table state, distance function, query vector, document-id
filter and limit `k`, `match_pdf_chunks` returns the `k` filter-matching
chunks of smallest distance to the query vector (all of them when fewer than
`k` match), ordered nearest-first, with every returned row carrying the
filtered `pdf_id`; every matching row left out is at least as distant as
every returned row; and the result is the empty list — not an error — when
no row matches the filter. -/
theorem match_pdf_chunks_spec (rows : List ChunkRow)
    (dist : List ℚ → List ℚ → ℚ) (qv : List ℚ) (pid : String) (k : ℕ) :
    (match_pdf_chunks rows dist qv pid k).length =
        min k (rowsMatchingPdfId rows pid).length ∧
    (∀ c ∈ match_pdf_chunks rows dist qv pid k,
        lookupMeta c.metadata "pdf_id" = some pid) ∧
    List.Sorted (fun a b => dist a.embedding qv ≤ dist b.embedding qv)
        (match_pdf_chunks rows dist qv pid k) ∧
    (∃ rest : List ChunkRow,
        (rowsMatchingPdfId rows pid).Perm
          (match_pdf_chunks rows dist qv pid k ++ rest) ∧
        ∀ a ∈ match_pdf_chunks rows dist qv pid k, ∀ b ∈ rest,
          dist a.embedding qv ≤ dist b.embedding qv) ∧
    (rowsMatchingPdfId rows pid = [] →
        match_pdf_chunks rows dist qv pid k = []) := by
  haveI : IsTotal ChunkRow
      (fun a b => dist a.embedding qv ≤ dist b.embedding qv) :=
    ⟨fun a b => le_total _ _⟩
  haveI : IsTrans ChunkRow
      (fun a b => dist a.embedding qv ≤ dist b.embedding qv) :=
    ⟨fun a b c hab hbc => le_trans hab hbc⟩
  have hperm := List.perm_insertionSort
    (fun a b : ChunkRow => dist a.embedding qv ≤ dist b.embedding qv)
    (rowsMatchingPdfId rows pid)
  have hsorted := List.sorted_insertionSort
    (fun a b : ChunkRow => dist a.embedding qv ≤ dist b.embedding qv)
    (rowsMatchingPdfId rows pid)
  have hdef : match_pdf_chunks rows dist qv pid k =
      (List.insertionSort
        (fun a b : ChunkRow => dist a.embedding qv ≤ dist b.embedding qv)
        (rowsMatchingPdfId rows pid)).take k := rfl
  refine ⟨?_, ?_, ?_, ?_, ?_⟩
  · rw [hdef, List.length_take, hperm.length_eq]
  · intro c hc
    rw [hdef] at hc
    have hc' := hperm.subset (List.take_subset k _ hc)
    have := (List.mem_filter.mp hc').2
    exact eq_of_beq this
  · rw [hdef]
    exact hsorted.sublist (List.take_sublist _ _)
  · refine ⟨(List.insertionSort
      (fun a b : ChunkRow => dist a.embedding qv ≤ dist b.embedding qv)
      (rowsMatchingPdfId rows pid)).drop k, ?_, ?_⟩
    · rw [hdef, List.take_append_drop]
      exact hperm.symm
    · intro a ha b hb
      rw [hdef] at ha
      have hpair : List.Pairwise
          (fun a b : ChunkRow => dist a.embedding qv ≤ dist b.embedding qv)
          ((List.insertionSort
            (fun a b : ChunkRow => dist a.embedding qv ≤ dist b.embedding qv)
            (rowsMatchingPdfId rows pid)).take k ++
          (List.insertionSort
            (fun a b : ChunkRow => dist a.embedding qv ≤ dist b.embedding qv)
            (rowsMatchingPdfId rows pid)).drop k) := by
        rw [List.take_append_drop]
        exact hsorted
      exact (List.pairwise_append.mp hpair).2.2 a ha b hb
  · intro h
    rw [hdef, h]
    simp [List.insertionSort]

/-- Witness for C4 at a concrete two-row table and a concrete distance
function: the limit-1 result keeps exactly the one nearest matching row. -/
theorem match_pdf_chunks_spec_witness :
    (match_pdf_chunks
        [⟨"c1", "alpha", [(3 : ℚ)], [("pdf_id", "doc-1")]⟩,
          ⟨"c2", "beta", [(1 : ℚ)], [("pdf_id", "doc-1")]⟩,
          ⟨"c3", "gamma", [(1 : ℚ)], [("pdf_id", "doc-2")]⟩]
        (fun a b => (a.headI - b.headI) * (a.headI - b.headI)) [(0 : ℚ)]
        "doc-1" 1).length =
      min 1 (rowsMatchingPdfId
        [⟨"c1", "alpha", [(3 : ℚ)], [("pdf_id", "doc-1")]⟩,
          ⟨"c2", "beta", [(1 : ℚ)], [("pdf_id", "doc-1")]⟩,
          ⟨"c3", "gamma", [(1 : ℚ)], [("pdf_id", "doc-2")]⟩] "doc-1").length :=
  (match_pdf_chunks_spec _ _ _ _ _).1
